import Mathlib

/-
Verification of the two-route HTTP service in src/main.py against its
natural-language specification. The application registers two handlers on a
FastAPI instance: GET / (read_root) and POST / (create_root), each returning a
constant dictionary. The framework dispatch layer (method/path matching,
serialization, 404/405/500 defaults) is modelled from the spec, since only the
route registrations live in the repository.
-/

namespace FastAPIHello

/-- JSON values, restricted to the fragment this service produces:
strings and objects with string keys. -/
inductive Json where
  | str : String → Json
  | obj : List (String × Json) → Json

/-- Keys of a JSON object, in order; non-objects have no keys. -/
def Json.keys : Json → List String
  | Json.obj fields => fields.map Prod.fst
  | _ => []

/-- Field access on a JSON object by key. -/
def Json.lookupKey (j : Json) (k : String) : Option Json :=
  match j with
  | Json.obj fields => (fields.find? (fun f => f.1 == k)).map Prod.snd
  | _ => none

/-- An incoming HTTP request: method, path, headers, query parameters and raw
body text. The handlers of this service declare no parameters, so none of
these fields ever reach them. -/
structure Request where
  method : String
  path : String
  headers : List (String × String)
  query : List (String × String)
  body : String

/-- An HTTP response: a status code and a JSON body. -/
structure Response where
  status : Nat
  body : Json

/-- The handler `read_root` from src/main.py, registered for GET /. It
declares no parameters (hence `Unit`) and its body is a single `return` of a
literal dictionary; evaluation cannot fail, so it always yields `Except.ok`. -/
def read_root : Unit → Except String Json :=
  fun _ =>
    Except.ok (Json.obj [("method", Json.str "GET"),
                         ("message", Json.str "Hello from GET!")])

/-- The handler `create_root` from src/main.py, registered for POST /. Like
`read_root` it declares no parameters and returns a literal dictionary. -/
def create_root : Unit → Except String Json :=
  fun _ =>
    Except.ok (Json.obj [("method", Json.str "POST"),
                         ("message", Json.str "Hello from POST!")])

/-- A registered route: an HTTP method, a path, and the handler the framework
invokes on a matching request. A handler that declares no parameters is
adapted as a function that ignores the request. -/
structure Route where
  method : String
  path : String
  handler : Request → Except String Json

/-- The route table built by the two decorators in src/main.py:
`@app.get("/")` on `read_root` and `@app.post("/")` on `create_root`. Both
handlers declare no parameters, so the framework adapter passes them nothing
from the request. -/
def app : List Route :=
  [ { method := "GET", path := "/", handler := fun _ => read_root () },
    { method := "POST", path := "/", handler := fun _ => create_root () } ]

/-- Modelled from the spec: the framework's default dispatch, which is not
part of this repository. It matches the request against the route table by
path and method; a full match runs the handler and wraps its value in a 200
response (500 on an unexpected handler failure); a path match with no method
match yields the default 405; no path match yields the default 404. -/
def dispatch (routes : List Route) (req : Request) : Response :=
  match routes.find? (fun r => r.path == req.path && r.method == req.method) with
  | some r =>
    match r.handler req with
    | Except.ok j => { status := 200, body := j }
    | Except.error _ =>
        { status := 500, body := Json.obj [("detail", Json.str "Internal Server Error")] }
  | none =>
    if routes.any (fun r => r.path == req.path) then
      { status := 405, body := Json.obj [("detail", Json.str "Method Not Allowed")] }
    else
      { status := 404, body := Json.obj [("detail", Json.str "Not Found")] }

/-- The service: the framework dispatching over the app's route table. -/
def serve (req : Request) : Response :=
  dispatch app req

/-- The constant GET payload from src/main.py line 9. -/
def getPayload : Json :=
  Json.obj [("method", Json.str "GET"), ("message", Json.str "Hello from GET!")]

/-- The constant POST payload from src/main.py line 13. -/
def postPayload : Json :=
  Json.obj [("method", Json.str "POST"), ("message", Json.str "Hello from POST!")]

/-- Serving a batch of requests, one response each. -/
def serveAll (reqs : List Request) : List Response :=
  reqs.map serve

/-- One request-handling step of the service, threading the service state
(the route table). The handler bodies in src/main.py contain no assignment
and touch no variable, so the state passes through unchanged. -/
def step (s : List Route) (req : Request) : Response × List Route :=
  (dispatch s req, s)

/-- Running the service over a request sequence from a starting state,
collecting responses and the final state. -/
def run (s : List Route) : List Request → List Response × List Route
  | [] => ([], s)
  | req :: rest =>
    let out := step s req
    let rec1 := run out.2 rest
    (out.1 :: rec1.1, rec1.2)

/-- Boolean equality test succeeds on provably equal strings. -/
theorem str_beq_of_eq {a b : String} (h : a = b) : (b == a) = true := by
  subst h
  exact beq_self_eq_true a

/-- Boolean equality test fails on provably distinct strings. -/
theorem str_beq_false_of_ne {a b : String} (h : a ≠ b) : (b == a) = false := by
  cases hb : (b == a) with
  | false => rfl
  | true => exact absurd (eq_of_beq hb).symm h

/-- Characterization of the service on an arbitrary request: the response is
determined by the method and path alone. -/
theorem serve_eq_cases (req : Request) :
    serve req =
      if req.path = "/" then
        if req.method = "GET" then { status := 200, body := getPayload }
        else if req.method = "POST" then { status := 200, body := postPayload }
        else { status := 405, body := Json.obj [("detail", Json.str "Method Not Allowed")] }
      else { status := 404, body := Json.obj [("detail", Json.str "Not Found")] } := by
  obtain ⟨m, p, hs, qs, b⟩ := req
  by_cases hp : p = "/" <;> by_cases hg : m = "GET" <;> by_cases hq : m = "POST"
  · rw [hg] at hq
    exact absurd hq (by decide)
  · simp [serve, dispatch, app, List.find?, hp, hg, str_beq_of_eq hp,
      str_beq_of_eq hg, read_root, getPayload]
  · simp [serve, dispatch, app, List.find?, hp, hg, hq, str_beq_of_eq hp,
      str_beq_false_of_ne hg, str_beq_of_eq hq, create_root, postPayload]
  · simp [serve, dispatch, app, List.find?, List.any, hp, hg, hq, str_beq_of_eq hp,
      str_beq_false_of_ne hg, str_beq_false_of_ne hq]
  · rw [hg] at hq
    exact absurd hq (by decide)
  · simp [serve, dispatch, app, List.find?, List.any, hp, str_beq_false_of_ne hp]
  · simp [serve, dispatch, app, List.find?, List.any, hp, str_beq_false_of_ne hp]
  · simp [serve, dispatch, app, List.find?, List.any, hp, str_beq_false_of_ne hp]

/-- Responses and final state of a run from any route table state: the state
is returned unchanged and each request is answered independently. -/
theorem run_pure (s : List Route) (reqs : List Request) :
    (run s reqs).2 = s ∧ (run s reqs).1 = reqs.map (dispatch s) := by
  induction reqs with
  | nil => exact ⟨rfl, rfl⟩
  | cons req rest ih => simp [run, step, ih.1, ih.2]

/-- Claim C1: every GET request to path / is answered with status 200 and a
body exactly equal to the JSON object with fields method = GET and
message = Hello from GET!. -/
theorem C1_get_root (req : Request) (hm : req.method = "GET") (hp : req.path = "/") :
    serve req =
      { status := 200,
        body := Json.obj [("method", Json.str "GET"),
                          ("message", Json.str "Hello from GET!")] } := by
  rw [serve_eq_cases req, if_pos hp, if_pos hm]
  rfl

/-- Concrete instantiation of C1 at a GET request to /. -/
theorem C1_get_root_witness :
    serve (Request.mk "GET" "/" [] [] "") =
      { status := 200,
        body := Json.obj [("method", Json.str "GET"),
                          ("message", Json.str "Hello from GET!")] } :=
  C1_get_root (Request.mk "GET" "/" [] [] "") rfl rfl

/-- Claim C2: every POST request to path / is answered with status 200 and a
body exactly equal to the JSON object with fields method = POST and
message = Hello from POST!. -/
theorem C2_post_root (req : Request) (hm : req.method = "POST") (hp : req.path = "/") :
    serve req =
      { status := 200,
        body := Json.obj [("method", Json.str "POST"),
                          ("message", Json.str "Hello from POST!")] } := by
  rw [serve_eq_cases req, if_pos hp, hm,
    if_neg (by decide : ¬("POST" : String) = "GET"), if_pos rfl]
  rfl

/-- Concrete instantiation of C2 at a POST request to /. -/
theorem C2_post_root_witness :
    serve (Request.mk "POST" "/" [] [] "") =
      { status := 200,
        body := Json.obj [("method", Json.str "POST"),
                          ("message", Json.str "Hello from POST!")] } :=
  C2_post_root (Request.mk "POST" "/" [] [] "") rfl rfl

/-- Claim C3: the root handlers consult no inputs; two requests to / with the
same method get identical responses whatever their headers, query parameters
or bodies. -/
theorem C3_no_inputs (r1 r2 : Request) (hm : r1.method = r2.method)
    (h1 : r1.path = "/") (h2 : r2.path = "/") :
    serve r1 = serve r2 := by
  rw [serve_eq_cases r1, serve_eq_cases r2, hm, h1, h2]

/-- Concrete instantiation of C3 at two GET requests to / differing in
headers, query and body. -/
theorem C3_no_inputs_witness :
    serve (Request.mk "GET" "/" [("X-Debug", "1")] [("a", "b")] "some body") =
      serve (Request.mk "GET" "/" [] [] "") :=
  C3_no_inputs (Request.mk "GET" "/" [("X-Debug", "1")] [("a", "b")] "some body")
    (Request.mk "GET" "/" [] [] "") rfl rfl rfl

/-- Claim C4: responses are stable and idempotent; repeating any identical
request n times yields the identical response every time. -/
theorem C4_idempotent (req : Request) (n : Nat) :
    serveAll (List.replicate n req) = List.replicate n (serve req) := by
  induction n with
  | zero => rfl
  | succ k ih =>
    simp only [List.replicate_succ, serveAll, List.map_cons] at ih ⊢
    rw [ih]

/-- Claim C5: a request to / whose method is neither GET nor POST gets the
framework default 405, a non-2xx status. -/
theorem C5_method_not_allowed (req : Request) (hp : req.path = "/")
    (h1 : req.method ≠ "GET") (h2 : req.method ≠ "POST") :
    (serve req).status = 405 ∧
      ¬(200 ≤ (serve req).status ∧ (serve req).status ≤ 299) := by
  rw [serve_eq_cases req, if_pos hp, if_neg h1, if_neg h2]
  exact ⟨rfl, by decide⟩

/-- Concrete instantiation of C5 at a DELETE request to /. -/
theorem C5_method_not_allowed_witness :
    (serve (Request.mk "DELETE" "/" [] [] "")).status = 405 ∧
      ¬(200 ≤ (serve (Request.mk "DELETE" "/" [] [] "")).status ∧
        (serve (Request.mk "DELETE" "/" [] [] "")).status ≤ 299) :=
  C5_method_not_allowed (Request.mk "DELETE" "/" [] [] "") rfl
    (by decide) (by decide)

/-- Claim C6: a request to any path other than / gets the framework default
404, a non-2xx status, whatever its method. -/
theorem C6_not_found (req : Request) (hp : req.path ≠ "/") :
    (serve req).status = 404 ∧
      ¬(200 ≤ (serve req).status ∧ (serve req).status ≤ 299) := by
  rw [serve_eq_cases req, if_neg hp]
  exact ⟨rfl, by decide⟩

/-- Concrete instantiation of C6 at a GET request to /other. -/
theorem C6_not_found_witness :
    (serve (Request.mk "GET" "/other" [] [] "")).status = 404 ∧
      ¬(200 ≤ (serve (Request.mk "GET" "/other" [] [] "")).status ∧
        (serve (Request.mk "GET" "/other" [] [] "")).status ≤ 299) :=
  C6_not_found (Request.mk "GET" "/other" [] [] "") (by decide)

/-- Claim C7: neither registered handler can raise; on any request each one
totally evaluates to an ok value. -/
theorem C7_handlers_never_error (req : Request) (r : Route) (hr : r ∈ app) :
    ∃ j, r.handler req = Except.ok j := by
  simp only [app, List.mem_cons, List.not_mem_nil, or_false] at hr
  rcases hr with h | h <;> subst h
  · exact ⟨getPayload, rfl⟩
  · exact ⟨postPayload, rfl⟩

/-- Concrete instantiation of C7 at the GET route and a concrete request. -/
theorem C7_handlers_never_error_witness :
    ∃ j, (Route.mk "GET" "/" (fun _ => read_root ())).handler
      (Request.mk "GET" "/" [] [] "") = Except.ok j :=
  C7_handlers_never_error (Request.mk "GET" "/" [] [] "")
    (Route.mk "GET" "/" (fun _ => read_root ())) (List.Mem.head _)

/-- Claim C8: the handlers are stateless; running the service over any
request sequence leaves the route-table state exactly as it was, and each
request is answered as if alone. -/
theorem C8_stateless (reqs : List Request) :
    (run app reqs).2 = app ∧ (run app reqs).1 = serveAll reqs :=
  run_pure app reqs

/-- Claim C9: a POST request to / is accepted with any body whatsoever; no
validation occurs, the response is the constant 200 payload and never a 422
validation error. -/
theorem C9_post_any_body (hs qs : List (String × String)) (b : String) :
    serve (Request.mk "POST" "/" hs qs b) =
        { status := 200,
          body := Json.obj [("method", Json.str "POST"),
                            ("message", Json.str "Hello from POST!")] } ∧
      (serve (Request.mk "POST" "/" hs qs b)).status ≠ 422 := by
  have h : serve (Request.mk "POST" "/" hs qs b) =
      { status := 200,
        body := Json.obj [("method", Json.str "POST"),
                          ("message", Json.str "Hello from POST!")] } := by
    rw [serve_eq_cases, if_pos rfl,
      if_neg (by decide : ¬("POST" : String) = "GET"), if_pos rfl]
    rfl
  refine ⟨h, ?_⟩
  rw [h]
  decide

/-- Claim C10: on every invocation each registered handler returns an object
with exactly the keys method and message, whose method field names the HTTP
method the handler is registered under. -/
theorem C10_body_shape (r : Route) (hr : r ∈ app) (req : Request) :
    ∃ payload, r.handler req = Except.ok payload ∧
      payload.keys = ["method", "message"] ∧
      payload.lookupKey "method" = some (Json.str r.method) := by
  simp only [app, List.mem_cons, List.not_mem_nil, or_false] at hr
  rcases hr with h | h <;> subst h
  · exact ⟨getPayload, rfl, rfl, rfl⟩
  · exact ⟨postPayload, rfl, rfl, rfl⟩

/-- Concrete instantiation of C10 at the POST route and a concrete request. -/
theorem C10_body_shape_witness :
    ∃ payload, (Route.mk "POST" "/" (fun _ => create_root ())).handler
        (Request.mk "POST" "/" [] [] "ignored") = Except.ok payload ∧
      payload.keys = ["method", "message"] ∧
      payload.lookupKey "method" = some (Json.str "POST") :=
  C10_body_shape (Route.mk "POST" "/" (fun _ => create_root ()))
    (List.Mem.tail _ (List.Mem.head _)) (Request.mk "POST" "/" [] [] "ignored")

end FastAPIHello
